import Mathlib

/-!
# fluxus: the pdata script bindings (`PDataFunctions.cpp`) and the PNG loader

A shallow embedding of `pdata_ref`, `pdata_set`, `pdata_add` and `pdata_op`
over an explicit model of the grabbed primitive's pdata container, and of the
row copies of `PNGLoader::Load` and `PNGLoader::Save` (`PNGLoader.cpp`).

* Scheme numbers are values of a type `S`, stored floats values of a type `F`;
  the two conversions between them are fields of `Marshal`, so no property of
  floating point arithmetic is assumed.
* `unsigned int` is a `Nat` reduced modulo `2 ^ 32`.
* What is undefined behaviour in C++ (`index % 0`, `m_Data[0]` of an empty
  vector, a typed access to an array of another type) is an explicit `Fault`.
* `cerr` is the list of diagnostics a call writes, in order.
-/

namespace Fluxus

/-! ## Values crossing the script boundary -/

/-- The Scheme values the bindings tell apart: `SCHEME_NUMBERP`,
`SCHEME_VECTORP` (a vector of numbers, with `SCHEME_VEC_SIZE` its length),
`SCHEME_CHAR_STRINGP`, `scheme_void`, and anything else. -/
inductive SchemeValue (S : Type) where
  | number (x : S)
  | vector (xs : List S)
  | string (s : String)
  | void
  | other
  deriving DecidableEq, Repr

/-- The conversions between Scheme numbers and stored floats, and the
constants of `dada.h` the bindings rely on (the default-constructed
elements that `resize` and a local `dColour c;` produce). -/
structure Marshal (S F : Type) where
  /-- The conversion `(float)scheme_real_to_double(ob)`. -/
  FloatFromScheme : S → F
  /-- The conversion `scheme_make_double(x)` of a stored float. -/
  scheme_make_double : F → S
  /-- The Scheme number `scheme_make_double(0)`. -/
  zero : S
  /-- The value-initialised `float`. -/
  float0 : F
  /-- The floats behind `dVector().arr()`. -/
  dVector0 : List F
  /-- The floats behind `dColour().arr()`. -/
  dColour0 : List F
  /-- The floats behind `dMatrix().arr()`. -/
  dMatrix0 : List F

/-- Modelled from the spec: `dVector` of `dada.h`, by the floats behind
`arr()` (three coordinates come first). -/
structure dVector (F : Type) where
  arr : List F
  deriving DecidableEq, Repr

/-- Modelled from the spec: `dColour` of `dada.h`, by the floats behind
`arr()` (red, green, blue, alpha). -/
structure dColour (F : Type) where
  arr : List F
  deriving DecidableEq, Repr

/-- Modelled from the spec: `dMatrix` of `dada.h`, by the sixteen floats
behind `arr()`. -/
structure dMatrix (F : Type) where
  arr : List F
  deriving DecidableEq, Repr

/-! ## The pdata container -/

/-- Modelled from the spec: `PData` and its subclasses `TypedPData<T>` (an
AttributeArray with a type tag and a length, and the element sequence
`m_Data`). `Other` is an array whose dynamic type is none of the four the
bindings know; it carries the tag and size that `GetDataInfo` reports. -/
inductive PData (F : Type) where
  | Float (m_Data : List F)
  | Vector (m_Data : List (dVector F))
  | Colour (m_Data : List (dColour F))
  | Matrix (m_Data : List (dMatrix F))
  | Other (type : Char) (size : Nat)
  deriving DecidableEq, Repr

/-- Modelled from the spec: `PData::Size()`, the length of the array. -/
def PData.Size {F : Type} : PData F → Nat
  | .Float d => d.length
  | .Vector d => d.length
  | .Colour d => d.length
  | .Matrix d => d.length
  | .Other _ size => size

/-- Modelled from the spec: the type tag of an array, as the `char` that
`GetDataInfo` hands back ('f', 'v', 'c', 'm'). -/
def PData.type {F : Type} : PData F → Char
  | .Float _ => 'f'
  | .Vector _ => 'v'
  | .Colour _ => 'c'
  | .Matrix _ => 'm'
  | .Other type _ => type

/-- Modelled from the spec: the AttributeStore of the grabbed primitive, a
mapping from names to arrays (`map<string,PData*> m_PData`), kept as an
association list in which the first entry of a name is the one found. -/
abbrev Store (F : Type) := List (String × PData F)

/-- Modelled from the spec: `GetDataRaw(name)`, `get_raw(name) -> polymorphic
handle or NotFound`. -/
def GetDataRaw {F : Type} : Store F → String → Option (PData F)
  | [], _ => none
  | (k, pd) :: rest, name => if k = name then some pd else GetDataRaw rest name

/-- Modelled from the spec: `GetDataInfo(name, type, size)`,
`get_info(name) -> (type_tag, length) or NotFound`. -/
def GetDataInfo {F : Type} (G : Store F) (name : String) : Option (Char × Nat) :=
  match GetDataRaw G name with
  | some pd => some (pd.type, pd.Size)
  | none => none

/-- The lines the bindings write to `cerr`. -/
inductive Diag where
  /-- The line `unknown pdata type [type]`. -/
  | unknown_pdata_type (type : Char)
  /-- The line `could not find pdata called [name]`. -/
  | could_not_find_pdata (name : String)
  /-- The line `pdata-get called without an objected being grabbed`. -/
  | not_grabbed
  /-- The line `expected number value in pdata-set`. -/
  | expected_number
  /-- The line `expected vector (size 3) value in pdata-set`. -/
  | expected_vector
  /-- The line `expected colour vector (size 3 or 4) value in pdata-set`. -/
  | expected_colour
  /-- The line `expected matrix vector (size 16) value in pdata-set`. -/
  | expected_matrix
  /-- The line `pdata-new: unknown type c`. -/
  | pdata_new_unknown_type (c : Char)
  /-- The line `Primitive::AddData: pdata: name already exists` of `AddData`. -/
  | already_exists (name : String)
  deriving DecidableEq, Repr

/-- Replace the array found under `name` by its image under `f`. -/
def Store.modify {F : Type} (f : PData F → PData F) : Store F → String → Store F
  | [], _ => []
  | (k, pd) :: rest, name =>
    if k = name then (k, f pd) :: rest else (k, pd) :: Store.modify f rest name

/-- What is undefined behaviour in the C++ source. -/
inductive Fault where
  /-- The expression `index % size` evaluated with `size == 0`. -/
  | moduloByZero
  /-- A typed access `GetData<T>`/`SetData<T>` to an array that is not a
  `TypedPData<T>`, or past its end. -/
  | badAccess
  /-- The read `m_Data[0]` of an empty vector. -/
  | emptyResult
  deriving DecidableEq, Repr

deriving instance DecidableEq for Except

/-- Modelled from the spec: `GetData<float>(name, index)`,
`get(index) -> T` with no bounds check. -/
def GetData_float {F : Type} (G : Store F) (name : String) (index : Nat) : Except Fault F :=
  match GetDataRaw G name with
  | some (.Float d) => match d[index]? with
    | some x => .ok x
    | none => .error .badAccess
  | _ => .error .badAccess

/-- Modelled from the spec: `GetData<dVector>(name, index)`. -/
def GetData_dVector {F : Type} (G : Store F) (name : String) (index : Nat) :
    Except Fault (dVector F) :=
  match GetDataRaw G name with
  | some (.Vector d) => match d[index]? with
    | some x => .ok x
    | none => .error .badAccess
  | _ => .error .badAccess

/-- Modelled from the spec: `GetData<dColour>(name, index)`. -/
def GetData_dColour {F : Type} (G : Store F) (name : String) (index : Nat) :
    Except Fault (dColour F) :=
  match GetDataRaw G name with
  | some (.Colour d) => match d[index]? with
    | some x => .ok x
    | none => .error .badAccess
  | _ => .error .badAccess

/-- Modelled from the spec: `GetData<dMatrix>(name, index)`. -/
def GetData_dMatrix {F : Type} (G : Store F) (name : String) (index : Nat) :
    Except Fault (dMatrix F) :=
  match GetDataRaw G name with
  | some (.Matrix d) => match d[index]? with
    | some x => .ok x
    | none => .error .badAccess
  | _ => .error .badAccess

/-- Modelled from the spec: `SetData<float>(name, index, s)`,
`set(index, value) -> void`, overwriting in place with no bounds check. -/
def SetData_float {F : Type} (G : Store F) (name : String) (index : Nat) (s : F) :
    Except Fault (Store F) :=
  match GetDataRaw G name with
  | some (.Float d) =>
    if index < d.length then .ok (Store.modify (fun _ => .Float (d.set index s)) G name)
    else .error .badAccess
  | _ => .error .badAccess

/-- Modelled from the spec: `SetData<dVector>(name, index, s)`. -/
def SetData_dVector {F : Type} (G : Store F) (name : String) (index : Nat) (s : dVector F) :
    Except Fault (Store F) :=
  match GetDataRaw G name with
  | some (.Vector d) =>
    if index < d.length then .ok (Store.modify (fun _ => .Vector (d.set index s)) G name)
    else .error .badAccess
  | _ => .error .badAccess

/-- Modelled from the spec: `SetData<dColour>(name, index, s)`. -/
def SetData_dColour {F : Type} (G : Store F) (name : String) (index : Nat) (s : dColour F) :
    Except Fault (Store F) :=
  match GetDataRaw G name with
  | some (.Colour d) =>
    if index < d.length then .ok (Store.modify (fun _ => .Colour (d.set index s)) G name)
    else .error .badAccess
  | _ => .error .badAccess

/-- Modelled from the spec: `SetData<dMatrix>(name, index, s)`. -/
def SetData_dMatrix {F : Type} (G : Store F) (name : String) (index : Nat) (s : dMatrix F) :
    Except Fault (Store F) :=
  match GetDataRaw G name with
  | some (.Matrix d) =>
    if index < d.length then .ok (Store.modify (fun _ => .Matrix (d.set index s)) G name)
    else .error .badAccess
  | _ => .error .badAccess

/-- Modelled from the spec: `AddData(name, pd)`, `add(name, type) -> void`,
which fails (reports the error, no-op) if `name` already exists and otherwise
adds the array to the mapping. -/
def AddData {F : Type} (G : Store F) (name : String) (pd : PData F) : List Diag × Store F :=
  match GetDataRaw G name with
  | some _ => ([.already_exists name], G)
  | none => ([], G ++ [(name, pd)])

/-! ## Marshalling helpers (`SchemeHelper`) -/

/-- Modelled from the spec: `FloatsToScheme(src, size)`, the Scheme vector of
the first `size` floats of `src`, in storage order. -/
def FloatsToScheme {S F : Type} (M : Marshal S F) (src : List F) (size : Nat) : SchemeValue S :=
  .vector ((src.take size).map M.scheme_make_double)

/-- Modelled from the spec: `FloatsFromScheme(src, dst, size)`, which
overwrites the first `size` floats of `dst` with the converted elements of
the Scheme vector and leaves the rest of `dst` as it was. -/
def FloatsFromScheme {S F : Type} (M : Marshal S F) (src : List S) (dst : List F) (size : Nat) :
    List F :=
  (src.take size).map M.FloatFromScheme ++ dst.drop size

/-- The conversion `unsigned int index = IntFromScheme(argv[1])`: the `int`
that `IntFromScheme` returns, converted to a 32-bit unsigned value. -/
def toUnsigned (i : Int) : Nat := (i % (2 ^ 32 : Int)).toNat

/-! ## The bindings -/

/-- The outcome of one call of a binding: what it wrote to `cerr`, the Scheme
value it returned, and the grabbed primitive's store afterwards (`none` when
nothing is grabbed). -/
structure Reply (S F : Type) where
  cerr : List Diag
  ret : SchemeValue S
  Grabbed : Option (Store F)
  deriving DecidableEq, Repr

/-- The binding `pdata_ref(argc, argv)` with `argv = [name, index]`
(`ArgCheck "si"`). -/
def pdata_ref {S F : Type} (M : Marshal S F) (Grabbed : Option (Store F))
    (name : String) (index : Int) : Except Fault (Reply S F) :=
  match Grabbed with
  | some G =>
    let index : Nat := toUnsigned index
    match GetDataInfo G name with
    | some (type, size) =>
      if type = 'f' then
        if size = 0 then .error .moduloByZero
        else match GetData_float G name (index % size) with
          | .ok x => .ok { cerr := [], ret := .number (M.scheme_make_double x), Grabbed := some G }
          | .error e => .error e
      else if type = 'v' then
        if size = 0 then .error .moduloByZero
        else match GetData_dVector G name (index % size) with
          | .ok x => .ok { cerr := [], ret := FloatsToScheme M x.arr 3, Grabbed := some G }
          | .error e => .error e
      else if type = 'c' then
        if size = 0 then .error .moduloByZero
        else match GetData_dColour G name (index % size) with
          | .ok x => .ok { cerr := [], ret := FloatsToScheme M x.arr 4, Grabbed := some G }
          | .error e => .error e
      else if type = 'm' then
        if size = 0 then .error .moduloByZero
        else match GetData_dMatrix G name (index % size) with
          | .ok x => .ok { cerr := [], ret := FloatsToScheme M x.arr 16, Grabbed := some G }
          | .error e => .error e
      else
        -- ret stays NULL: both lines are written
        .ok { cerr := [.unknown_pdata_type type, .could_not_find_pdata name],
              ret := .number M.zero, Grabbed := some G }
    | none =>
      .ok { cerr := [.could_not_find_pdata name], ret := .number M.zero, Grabbed := some G }
  | none => .ok { cerr := [.not_grabbed], ret := .void, Grabbed := none }

/-- The binding `pdata_set(argc, argv)` with `argv = [name, index, value]`
(`ArgCheck "si?"`). -/
def pdata_set {S F : Type} (M : Marshal S F) (Grabbed : Option (Store F))
    (name : String) (index : Int) (value : SchemeValue S) : Except Fault (Reply S F) :=
  match Grabbed with
  | some G =>
    let index : Nat := toUnsigned index
    match GetDataInfo G name with
    | some (type, size) =>
      if type = 'f' then
        match value with
        | .number x =>
          if size = 0 then .error .moduloByZero
          else match SetData_float G name (index % size) (M.FloatFromScheme x) with
            | .ok G1 => .ok { cerr := [], ret := .void, Grabbed := some G1 }
            | .error e => .error e
        | _ => .ok { cerr := [.expected_number], ret := .void, Grabbed := some G }
      else if type = 'v' then
        match value with
        | .vector xs =>
          if xs.length = 3 then
            let v : dVector F := ⟨FloatsFromScheme M xs M.dVector0 3⟩
            if size = 0 then .error .moduloByZero
            else match SetData_dVector G name (index % size) v with
              | .ok G1 => .ok { cerr := [], ret := .void, Grabbed := some G1 }
              | .error e => .error e
          else .ok { cerr := [.expected_vector], ret := .void, Grabbed := some G }
        | _ => .ok { cerr := [.expected_vector], ret := .void, Grabbed := some G }
      else if type = 'c' then
        match value with
        | .vector xs =>
          if 3 ≤ xs.length ∧ xs.length ≤ 4 then
            let c : dColour F :=
              if xs.length = 3 then ⟨FloatsFromScheme M xs M.dColour0 3⟩
              else ⟨FloatsFromScheme M xs M.dColour0 4⟩
            if size = 0 then .error .moduloByZero
            else match SetData_dColour G name (index % size) c with
              | .ok G1 => .ok { cerr := [], ret := .void, Grabbed := some G1 }
              | .error e => .error e
          else .ok { cerr := [.expected_colour], ret := .void, Grabbed := some G }
        | _ => .ok { cerr := [.expected_colour], ret := .void, Grabbed := some G }
      else if type = 'm' then
        match value with
        | .vector xs =>
          if xs.length = 16 then
            let m : dMatrix F := ⟨FloatsFromScheme M xs M.dMatrix0 16⟩
            if size = 0 then .error .moduloByZero
            else match SetData_dMatrix G name (index % size) m with
              | .ok G1 => .ok { cerr := [], ret := .void, Grabbed := some G1 }
              | .error e => .error e
          else .ok { cerr := [.expected_matrix], ret := .void, Grabbed := some G }
        | _ => .ok { cerr := [.expected_matrix], ret := .void, Grabbed := some G }
      else .ok { cerr := [], ret := .void, Grabbed := some G }
    | none => .ok { cerr := [], ret := .void, Grabbed := some G }
  | none => .ok { cerr := [], ret := .void, Grabbed := none }

/-- The character `types[0]` of a `std::string`: its first character, and the
terminating NUL when the string is empty. -/
def firstChar (types : String) : Char := types.data.headD (Char.ofNat 0)

/-- The binding `pdata_add(argc, argv)` with `argv = [argv0, argv1]`
(`ArgCheck "ss"`): the source reads `names` from `argv[0]` and `types` from
`argv[1]`. -/
def pdata_add {S F : Type} (M : Marshal S F) (Grabbed : Option (Store F))
    (argv0 argv1 : String) : Reply S F :=
  match Grabbed with
  | some G =>
    let names := argv0
    let types := argv1
    let size : Nat := match GetDataInfo G "p" with
      | some (_, size) => size
      | none => 0
    let c := firstChar types
    let ptr : Option (PData F) :=
      if c = 'v' then some (.Vector (List.replicate size ⟨M.dVector0⟩))
      else if c = 'c' then some (.Colour (List.replicate size ⟨M.dColour0⟩))
      else if c = 'f' then some (.Float (List.replicate size M.float0))
      else if c = 'm' then some (.Matrix (List.replicate size ⟨M.dMatrix0⟩))
      else none
    match ptr with
    | some pd =>
      let r := AddData G names pd
      { cerr := r.1, ret := .void, Grabbed := some r.2 }
    | none => { cerr := [.pdata_new_unknown_type c], ret := .void, Grabbed := some G }
  | none => { cerr := [], ret := .void, Grabbed := none }

/-- The second operand handed to `Primitive::DataOp`, one constructor for each
overload the binding calls. -/
inductive Operand (F : Type) where
  | data (pd : PData F)
  | float (x : F)
  | vector (v : dVector F)
  | colour (c : dColour F)
  | matrix (m : dMatrix F)
  deriving DecidableEq, Repr

/-- The op engine `Primitive::DataOp(op, name, operand)`, which is not part of
the bindings: it may mutate the store and may hand back a new array. -/
abbrev Engine (F : Type) := String → String → Operand F → Store F → Option (PData F) × Store F

/-- The outcome of one call of `pdata_op`: a `Reply` together with the calls
of the op engine that were made. -/
structure OpReply (S F : Type) where
  cerr : List Diag
  ret : SchemeValue S
  Grabbed : Option (Store F)
  calls : List (String × String × Operand F)
  deriving DecidableEq, Repr

/-- The tail of `pdata_op` ("convert the return data"): unwrap element 0 of the
array the engine handed back. -/
def convertReturn {S F : Type} (M : Marshal S F) (ret : Option (PData F)) :
    Except Fault (SchemeValue S) :=
  match ret with
  | some (.Vector d) => match d[0]? with
    | some r => .ok (FloatsToScheme M r.arr 3)
    | none => .error .emptyResult
  | some (.Colour d) => match d[0]? with
    | some r => .ok (FloatsToScheme M r.arr 4)
    | none => .error .emptyResult
  | some (.Float d) => match d[0]? with
    | some r => .ok (.number (M.scheme_make_double r))
    | none => .error .emptyResult
  | some (.Matrix d) => match d[0]? with
    | some r => .ok (FloatsToScheme M r.arr 16)
    | none => .error .emptyResult
  | some (.Other _ _) => .ok .void
  | none => .ok .void

/-- The operand and the engine call that `pdata_op` selects for `argv[2]`, if
any. -/
def selectOperand {S F : Type} (M : Marshal S F) (G : Store F) (value : SchemeValue S) :
    Option (Operand F) :=
  match value with
  | .string operand =>
    match GetDataRaw G operand with
    | some (.Vector d) => some (.data (.Vector d))
    | some (.Colour d) => some (.data (.Colour d))
    | some (.Float d) => some (.data (.Float d))
    | some (.Matrix d) => some (.data (.Matrix d))
    | _ => none
  | .number x => some (.float (M.FloatFromScheme x))
  | .vector xs =>
    if xs.length = 3 then some (.vector ⟨FloatsFromScheme M xs M.dVector0 3⟩)
    else if xs.length = 4 then some (.colour ⟨FloatsFromScheme M xs M.dColour0 4⟩)
    else if xs.length = 16 then some (.matrix ⟨FloatsFromScheme M xs M.dMatrix0 16⟩)
    else none
  | _ => none

/-- The binding `pdata_op(argc, argv)` with `argv = [op, pd, value]`
(`ArgCheck "ss?"`), over the op engine `DataOp`. -/
def pdata_op {S F : Type} (M : Marshal S F) (DataOp : Engine F) (Grabbed : Option (Store F))
    (op pd : String) (value : SchemeValue S) : Except Fault (OpReply S F) :=
  match Grabbed with
  | some G =>
    match selectOperand M G value with
    | some operand =>
      let r := DataOp op pd operand G
      match convertReturn M r.1 with
      | .ok v => .ok { cerr := [], ret := v, Grabbed := some r.2, calls := [(op, pd, operand)] }
      | .error e => .error e
    | none => .ok { cerr := [], ret := .void, Grabbed := some G, calls := [] }
  | none => .ok { cerr := [], ret := .void, Grabbed := none, calls := [] }

/-! ## Concrete inputs -/

/-- A marshalling in which numbers on both sides are integers and both
conversions are exact, with the defaults of `dada.h`: the zero vector, solid
black, and the identity matrix. Used to evaluate the bindings. -/
def exactMarshal : Marshal Int Int where
  FloatFromScheme := id
  scheme_make_double := id
  zero := 0
  float0 := 0
  dVector0 := [0, 0, 0, 1]
  dColour0 := [0, 0, 0, 1]
  dMatrix0 := [1, 0, 0, 0, 0, 1, 0, 0, 0, 0, 1, 0, 0, 0, 0, 1]

/-- A store with a float array "f" of length three and nothing else. -/
def threeFloats : Store Int := [("f", .Float [10, 20, 30])]

/-- A store with a colour array "c" of length one. -/
def oneColour : Store Int := [("c", .Colour [⟨[0, 0, 0, 1]⟩])]

/-- A store with a float array "e" of length zero, as `pdata_add` makes on a
primitive that has no array "p". -/
def emptyFloats : Store Int := [("e", .Float [])]

/-- A store with an array "x" of a type the bindings do not know. -/
def strangeStore : Store Int := [("x", .Other 'x' 2)]

/-- A store with the position array "p" of length two. -/
def twoPoints : Store Int := [("p", .Vector [⟨[1, 2, 3, 1]⟩, ⟨[4, 5, 6, 1]⟩])]

/-- An op engine that does nothing and hands back nothing. -/
def idleEngine : Engine Int := fun _ _ _ G => (none, G)

/-- An op engine that leaves the store as it is and hands back the array it is
built from, whatever it is asked. -/
def constEngine (result : PData Int) : Engine Int := fun _ _ _ G => (some result, G)

/-! ## The PNG loader (`PNGLoader.cpp`)

`PNGLoader::Load` and `PNGLoader::Save` from the point where libpng has decoded
the file, and up to the point where it encodes it: the file is the image libpng
reads and writes, row by row. `unsigned int` arithmetic is reduced modulo
`2 ^ 32`; the overflow of an `int`, which is undefined, is a `LoadFault`, and
the read of a `png_text` member that was never assigned a `SaveFault`. -/

/-- A byte (`png_byte`, `unsigned char`): the loader only copies bytes. -/
abbrev png_byte := Nat

/-- The largest `int`. -/
def INT_MAX : Nat := 2147483647

/-- The conversion of an integer to `int`: reduction modulo `2 ^ 32` into the
range of `int`. -/
def toInt32 (z : Int) : Int :=
  if z % (2 ^ 32 : Int) < (2 ^ 31 : Int) then z % (2 ^ 32 : Int) else z % (2 ^ 32 : Int) - 2 ^ 32

/-- The constants of `png.h` and `OpenGL.h` that the loader names
(`PNG_COLOR_TYPE_RGBA` is `PNG_COLOR_TYPE_RGB_ALPHA` in `png.h`). -/
structure PngConstants where
  PNG_COLOR_TYPE_RGB : Int
  PNG_COLOR_TYPE_RGB_ALPHA : Int
  GL_RGB : Int
  GL_RGBA : Int

/-- An image as libpng hands it over: `png_get_image_width`,
`png_get_image_height`, `png_get_color_type`, `png_get_rowbytes`, and the rows
`row_pointers[row][i]` in file order. -/
structure PngImage where
  width : Nat
  height : Nat
  colour_type : Int
  rowbytes : Nat
  row_pointers : Nat → Nat → png_byte

/-- The fields of `TexturePainter::TextureDesc` that `Load` assigns;
`ImageData` is `none` for the NULL pointer. -/
structure TextureDesc where
  Width : Nat
  Height : Nat
  Format : Int
  InternalFormat : Int
  Size : Nat
  ImageData : Option (List png_byte)
  deriving DecidableEq, Repr

/-- What is undefined behaviour in `Load`. -/
inductive LoadFault where
  /-- The increment `p++` of the `int p` at `INT_MAX`. -/
  | p_overflow
  deriving DecidableEq, Repr

/-- The inner loop of `Load`,
`for (i; i<rb; i++) { ImageData[p] = row_pointers[row][i]; p++; }`, for the
`n` values of `i` that are left. The buffer is kept as the bytes written so
far, `p` of them, so that the write at `p` appends. -/
def copyRow (row : Nat → png_byte) :
    Nat → Nat → List png_byte × Nat → Except LoadFault (List png_byte × Nat)
  | 0, _, st => .ok st
  | n + 1, i, (ImageData, p) =>
    if p = INT_MAX then .error .p_overflow
    else copyRow row n (i + 1) (ImageData ++ [row i], p + 1)

/-- The outer loop of `Load`, `for (int row; row>=0; row--)`, for the `n`
values `n - 1, ..., 0` of `row` that are left. -/
def fillRows (row_pointers : Nat → Nat → png_byte) (rb : Nat) :
    Nat → List png_byte × Nat → Except LoadFault (List png_byte × Nat)
  | 0, st => .ok st
  | n + 1, st =>
    match copyRow (row_pointers n) rb 0 st with
    | .ok st1 => fillRows row_pointers rb n st1
    | .error e => .error e

/-- The function `PNGLoader::Load` on a file that libpng has read into `img`:
the copy into `desc.ImageData`, then the conversion of the format. -/
def PNGLoader.Load (K : PngConstants) (img : PngImage) (desc : TextureDesc) :
    Except LoadFault TextureDesc :=
  let width := img.width
  let height := img.height
  let colour_type := img.colour_type
  let rb : Nat := img.rowbytes % 2 ^ 32
  let row : Int := toInt32 ((height : Int) - 1)
  match fillRows img.row_pointers rb (row + 1).toNat ([], 0) with
  | .error e => .error e
  | .ok (ImageData, _) =>
    let desc := { desc with ImageData := some ImageData, Width := width, Height := height }
    if colour_type = K.PNG_COLOR_TYPE_RGB then
      .ok { desc with Format := K.GL_RGB, InternalFormat := K.GL_RGB,
                      Size := width * height * 3 }
    else if colour_type = K.PNG_COLOR_TYPE_RGB_ALPHA then
      .ok { desc with Format := K.GL_RGBA, InternalFormat := K.GL_RGBA,
                      Size := width * height * 4 }
    else
      -- "PNG pixel format not supported": delete[] desc.ImageData
      .ok { desc with ImageData := none }

/-- An entry of the array `png_text atext[3]` of `Save`, by the members that
`png_set_text` reads; `none` is a member that was never assigned. -/
structure png_text where
  key : Option String
  text : Option String
  compression : Option Int
  deriving DecidableEq, Repr

/-- What is undefined behaviour in `Save`. -/
inductive SaveFault where
  /-- The read, inside `png_set_text`, of a member of a `png_text` that was
  never assigned. -/
  | uninitialised_text
  deriving DecidableEq, Repr

/-- The call `png_set_text(ppng, pinfo, text_ptr, num_text)` as far as the
source decides it: libpng reads the key, the text and the compression of each
of the first `num_text` entries, and the read of a member that was never
assigned is undefined. -/
def png_set_text (text_ptr : List png_text) (num_text : Nat) : Except SaveFault Unit :=
  if num_text ≤ text_ptr.length
      ∧ (text_ptr.take num_text).all
          (fun t => t.key.isSome && t.text.isSome && t.compression.isSome) = true then
    .ok ()
  else .error .uninitialised_text

/-- The row pointers of `Save`, `aprow[i] = data + stride * (h - 1 - i)` for
`i < h`, as byte `j` of file row `i`; the offset is computed in
`unsigned int`. -/
def aprow (stride h : Nat) (data : Nat → png_byte) : Nat → Nat → png_byte :=
  fun i j => data ((stride * (h - 1 - i)) % 2 ^ 32 + j)

/-- The function `PNGLoader::Save` up to the image handed to libpng:
`.ok none` when the pixel format is unknown and nothing is written. Of the
array `atext` only `atext[0]` is assigned its key, text and compression
(`PNG_TEXT_COMPRESSION_NONE` is -1 in `png.h`), and `png_set_text` is called
with a count of 2. -/
def PNGLoader.Save (K : PngConstants) (w h : Nat) (pf : Int) (data : Nat → png_byte) :
    Except SaveFault (Option PngImage) :=
  let numchannels : Nat := if pf = K.GL_RGBA then 4 else 3
  if pf = K.GL_RGB ∨ pf = K.GL_RGBA then
    let colour_type : Int :=
      if pf = K.GL_RGB then K.PNG_COLOR_TYPE_RGB else K.PNG_COLOR_TYPE_RGB_ALPHA
    let atext : List png_text :=
      [⟨some "title", some "made with fluxus", some (-1)⟩, ⟨none, none, none⟩,
       ⟨none, none, none⟩]
    match png_set_text atext 2 with
    | .error e => .error e
    | .ok _ =>
      let stride : Nat := (w * numchannels) % 2 ^ 32
      .ok (some { width := w, height := h, colour_type := colour_type,
                  rowbytes := w * numchannels, row_pointers := aprow stride h data })
  else
    -- "Error, unknown pixel format"
    .ok none

/-- The values of the constants in `png.h` and `gl.h`. -/
def pngConstants : PngConstants where
  PNG_COLOR_TYPE_RGB := 2
  PNG_COLOR_TYPE_RGB_ALPHA := 6
  GL_RGB := 6407
  GL_RGBA := 6408

/-- An RGB image of width 1 and height 2: the file rows are (1, 2, 3) and
(4, 5, 6). -/
def twoRows : PngImage where
  width := 1
  height := 2
  colour_type := 2
  rowbytes := 3
  row_pointers := fun row i => 3 * row + i + 1

/-- A greyscale image (`PNG_COLOR_TYPE_GRAY` is 0) of width 1 and height 1. -/
def greyPixel : PngImage where
  width := 1
  height := 1
  colour_type := 0
  rowbytes := 1
  row_pointers := fun _ _ => 255

/-- A texture description before `Load`. -/
def emptyDesc : TextureDesc where
  Width := 0
  Height := 0
  Format := 0
  InternalFormat := 0
  Size := 0
  ImageData := none

/-- A pixel buffer that is 0 on its first `2 ^ 32` bytes and 1 after them. -/
def longBuffer : Nat → png_byte := fun n => if n < 2 ^ 32 then 0 else 1

/-! ## Lemmas on the container -/

theorem GetDataRaw_modify {F : Type} (f : PData F → PData F) (G : Store F) (name : String) :
    GetDataRaw (Store.modify f G name) name = (GetDataRaw G name).map f := by
  induction G with
  | nil => simp [Store.modify, GetDataRaw]
  | cons e rest ih =>
    obtain ⟨k, pd⟩ := e
    by_cases hk : k = name
    · simp [Store.modify, GetDataRaw, hk]
    · simp [Store.modify, GetDataRaw, hk, ih]

theorem GetData_float_ne_modulo {F : Type} (G : Store F) (name : String) (index : Nat) :
    GetData_float G name index ≠ .error .moduloByZero := by
  unfold GetData_float
  repeat' split
  all_goals simp

theorem GetData_dVector_ne_modulo {F : Type} (G : Store F) (name : String) (index : Nat) :
    GetData_dVector G name index ≠ .error .moduloByZero := by
  unfold GetData_dVector
  repeat' split
  all_goals simp

theorem GetData_dColour_ne_modulo {F : Type} (G : Store F) (name : String) (index : Nat) :
    GetData_dColour G name index ≠ .error .moduloByZero := by
  unfold GetData_dColour
  repeat' split
  all_goals simp

theorem GetData_dMatrix_ne_modulo {F : Type} (G : Store F) (name : String) (index : Nat) :
    GetData_dMatrix G name index ≠ .error .moduloByZero := by
  unfold GetData_dMatrix
  repeat' split
  all_goals simp

theorem toUnsigned_add (i : Int) (n : Nat) (h : toUnsigned i + n < 2 ^ 32) :
    toUnsigned (i + n) = toUnsigned i + n := by
  unfold toUnsigned at *
  omega

theorem getElem?_set_mod {α : Type} (d : List α) (u : Nat) (v : α) (h : 0 < d.length) :
    (d.set (u % d.length) v)[u % (d.set (u % d.length) v).length]? = some v := by
  rw [List.length_set]
  exact List.getElem?_set_self (Nat.mod_lt u h)

theorem FloatsToScheme_FloatsFromScheme {S F : Type} (M : Marshal S F) (xs : List S)
    (dst : List F) (n : Nat) (h : xs.length = n) :
    FloatsToScheme M (FloatsFromScheme M xs dst n) n
      = .vector (xs.map (fun x => M.scheme_make_double (M.FloatFromScheme x))) := by
  subst h
  simp [FloatsToScheme, FloatsFromScheme, List.take_append_eq_append_take]

theorem FloatsToScheme_colour3 {S F : Type} (M : Marshal S F) (xs : List S)
    (dst : List F) (h : xs.length = 3) :
    FloatsToScheme M (FloatsFromScheme M xs dst 3) 4
      = .vector (xs.map (fun x => M.scheme_make_double (M.FloatFromScheme x))
          ++ ((dst.drop 3).take 1).map M.scheme_make_double) := by
  have h3 : xs.take 3 = xs := List.take_of_length_le (by omega)
  have h4 : (xs.map M.FloatFromScheme).take 4 = xs.map M.FloatFromScheme :=
    List.take_of_length_le (by simp [h])
  simp [FloatsToScheme, FloatsFromScheme, List.take_append_eq_append_take, h, h3, h4]

theorem GetDataRaw_append_new {F : Type} (G : Store F) (name : String) (pd : PData F)
    (h : GetDataRaw G name = none) : GetDataRaw (G ++ [(name, pd)]) name = some pd := by
  induction G with
  | nil => simp [GetDataRaw]
  | cons e rest ih =>
    obtain ⟨k, q⟩ := e
    by_cases hk : k = name
    · simp [GetDataRaw, hk] at h
    · simp only [GetDataRaw, hk, if_false] at h
      simp [GetDataRaw, hk, ih h]

/-! ## C1: the modulo-indexing law -/

/-- C1 (as amended): for every store, every array present in it with length
L > 0 and every index whose unsigned 32-bit value u satisfies u + L < 2^32,
`pdata_ref(name, i + L)` and `pdata_ref(name, i)` give the same outcome, and the
modulo is taken by a non-zero length. -/
theorem pdata_ref_modulo_law {S F : Type} (M : Marshal S F) (G : Store F) (name : String)
    (pd : PData F) (i : Int) (h : GetDataRaw G name = some pd) (hL : 0 < pd.Size)
    (hi : toUnsigned i + pd.Size < 2 ^ 32) :
    pdata_ref M (some G) name (i + pd.Size) = pdata_ref M (some G) name i
    ∧ pdata_ref M (some G) name i ≠ .error .moduloByZero := by
  have hu := toUnsigned_add i pd.Size hi
  have hne : pd.Size ≠ 0 := Nat.pos_iff_ne_zero.mp hL
  refine ⟨by simp only [pdata_ref, GetDataInfo, h, hu, Nat.add_mod_right], ?_⟩
  simp only [pdata_ref, GetDataInfo, h, hne, if_false]
  have h1 := GetData_float_ne_modulo G name (toUnsigned i % pd.Size)
  have h2 := GetData_dVector_ne_modulo G name (toUnsigned i % pd.Size)
  have h3 := GetData_dColour_ne_modulo G name (toUnsigned i % pd.Size)
  have h4 := GetData_dMatrix_ne_modulo G name (toUnsigned i % pd.Size)
  cases hg1 : GetData_float G name (toUnsigned i % pd.Size) <;>
  cases hg2 : GetData_dVector G name (toUnsigned i % pd.Size) <;>
  cases hg3 : GetData_dColour G name (toUnsigned i % pd.Size) <;>
  cases hg4 : GetData_dMatrix G name (toUnsigned i % pd.Size) <;>
  (simp only [hg1, hg2, hg3, hg4] at h1 h2 h3 h4 ⊢; repeat' split) <;> simp_all

/-- The law of C1 at the store `threeFloats`, index 1 and length 3. -/
theorem pdata_ref_modulo_law_witness :
    pdata_ref exactMarshal (some threeFloats) "f" (1 + (3 : Nat))
      = pdata_ref exactMarshal (some threeFloats) "f" 1
    ∧ pdata_ref exactMarshal (some threeFloats) "f" 1 ≠ .error .moduloByZero :=
  pdata_ref_modulo_law exactMarshal threeFloats "f" (.Float [10, 20, 30]) 1
    (by decide) (by decide) (by decide)

/-- C1 fails as stated: with an array of length 3, the script index -1 is the
unsigned 32-bit index 4294967295 and reads element 0, while that index plus 3
wraps to 2 and reads element 2. -/
theorem pdata_ref_modulo_law_wraps :
    GetDataRaw threeFloats "f" = some (.Float [10, 20, 30])
    ∧ toUnsigned (-1) = 4294967295
    ∧ toUnsigned (-1 + 3) = (4294967295 + 3) % 2 ^ 32
    ∧ pdata_ref exactMarshal (some threeFloats) "f" (-1)
        = .ok { cerr := [], ret := .number 10, Grabbed := some threeFloats }
    ∧ pdata_ref exactMarshal (some threeFloats) "f" (-1 + 3)
        = .ok { cerr := [], ret := .number 30, Grabbed := some threeFloats }
    ∧ pdata_ref exactMarshal (some threeFloats) "f" (-1)
        ≠ pdata_ref exactMarshal (some threeFloats) "f" (-1 + 3) := by
  decide

/-! ## C2: assign then ref -/

/-- C2 (as amended): on an array of length > 0, `pdata_set(name, i, v)`
followed by `pdata_ref(name, i)` returns the value as stored, each component
converted to a stored float and back: for a number on a float array, a 3-tuple
on a vector array, a 4-tuple on a colour array and a 16-tuple on a matrix
array this is the assigned value component for component; a 3-tuple, which a
colour array accepts as well, reads back as 4 components, the assigned three
followed by the alpha of the default colour. -/
theorem pdata_set_ref_roundtrip {S F : Type} (M : Marshal S F) (G : Store F) (name : String)
    (index : Int) :
    (∀ d x, GetDataRaw G name = some (.Float d) → 0 < d.length →
      ∃ G1, pdata_set M (some G) name index (.number x)
          = .ok { cerr := [], ret := .void, Grabbed := some G1 }
        ∧ pdata_ref M (some G1) name index
          = .ok { cerr := [], ret := .number (M.scheme_make_double (M.FloatFromScheme x)),
                  Grabbed := some G1 })
    ∧ (∀ d xs, GetDataRaw G name = some (.Vector d) → 0 < d.length → xs.length = 3 →
      ∃ G1, pdata_set M (some G) name index (.vector xs)
          = .ok { cerr := [], ret := .void, Grabbed := some G1 }
        ∧ pdata_ref M (some G1) name index
          = .ok { cerr := [],
                  ret := .vector (xs.map (fun x => M.scheme_make_double (M.FloatFromScheme x))),
                  Grabbed := some G1 })
    ∧ (∀ d xs, GetDataRaw G name = some (.Colour d) → 0 < d.length → xs.length = 4 →
      ∃ G1, pdata_set M (some G) name index (.vector xs)
          = .ok { cerr := [], ret := .void, Grabbed := some G1 }
        ∧ pdata_ref M (some G1) name index
          = .ok { cerr := [],
                  ret := .vector (xs.map (fun x => M.scheme_make_double (M.FloatFromScheme x))),
                  Grabbed := some G1 })
    ∧ (∀ d xs, GetDataRaw G name = some (.Colour d) → 0 < d.length → xs.length = 3 →
      ∃ G1, pdata_set M (some G) name index (.vector xs)
          = .ok { cerr := [], ret := .void, Grabbed := some G1 }
        ∧ pdata_ref M (some G1) name index
          = .ok { cerr := [],
                  ret := .vector (xs.map (fun x => M.scheme_make_double (M.FloatFromScheme x))
                    ++ ((M.dColour0.drop 3).take 1).map M.scheme_make_double),
                  Grabbed := some G1 })
    ∧ (∀ d xs, GetDataRaw G name = some (.Matrix d) → 0 < d.length → xs.length = 16 →
      ∃ G1, pdata_set M (some G) name index (.vector xs)
          = .ok { cerr := [], ret := .void, Grabbed := some G1 }
        ∧ pdata_ref M (some G1) name index
          = .ok { cerr := [],
                  ret := .vector (xs.map (fun x => M.scheme_make_double (M.FloatFromScheme x))),
                  Grabbed := some G1 }) := by
  refine ⟨?_, ?_, ?_, ?_, ?_⟩
  · intro d x h hd
    have hne : d.length ≠ 0 := Nat.pos_iff_ne_zero.mp hd
    have hlt := Nat.mod_lt (toUnsigned index) hd
    refine ⟨Store.modify (fun _ => PData.Float (d.set (toUnsigned index % d.length)
        (M.FloatFromScheme x))) G name, ?_, ?_⟩
    · simp only [pdata_set, GetDataInfo, h, PData.type, PData.Size, SetData_float, hne, hlt,
        if_true, if_false]
    · have hg := GetDataRaw_modify (fun _ => PData.Float (d.set (toUnsigned index % d.length)
        (M.FloatFromScheme x))) G name
      rw [h] at hg
      simp [pdata_ref, GetDataInfo, hg, PData.type, PData.Size, GetData_float, hne, hlt]
  · intro d xs h hd hx
    have hne : d.length ≠ 0 := Nat.pos_iff_ne_zero.mp hd
    have hlt := Nat.mod_lt (toUnsigned index) hd
    refine ⟨Store.modify (fun _ => PData.Vector (d.set (toUnsigned index % d.length)
        ⟨FloatsFromScheme M xs M.dVector0 3⟩)) G name, ?_, ?_⟩
    · simp only [pdata_set, GetDataInfo, h, PData.type, PData.Size, SetData_dVector, hne, hlt,
        hx, if_true, if_false]
      simp
    · have hg := GetDataRaw_modify (fun _ => PData.Vector (d.set (toUnsigned index % d.length)
        ⟨FloatsFromScheme M xs M.dVector0 3⟩)) G name
      rw [h] at hg
      simp [pdata_ref, GetDataInfo, hg, PData.type, PData.Size, GetData_dVector, hne, hlt,
        FloatsToScheme_FloatsFromScheme M xs M.dVector0 3 hx]
  · intro d xs h hd hx
    have hne : d.length ≠ 0 := Nat.pos_iff_ne_zero.mp hd
    have hlt := Nat.mod_lt (toUnsigned index) hd
    refine ⟨Store.modify (fun _ => PData.Colour (d.set (toUnsigned index % d.length)
        ⟨FloatsFromScheme M xs M.dColour0 4⟩)) G name, ?_, ?_⟩
    · simp only [pdata_set, GetDataInfo, h, PData.type, PData.Size, SetData_dColour, hne, hlt,
        hx, if_true, if_false]
      simp
    · have hg := GetDataRaw_modify (fun _ => PData.Colour (d.set (toUnsigned index % d.length)
        ⟨FloatsFromScheme M xs M.dColour0 4⟩)) G name
      rw [h] at hg
      simp [pdata_ref, GetDataInfo, hg, PData.type, PData.Size, GetData_dColour, hne, hlt,
        FloatsToScheme_FloatsFromScheme M xs M.dColour0 4 hx]
  · intro d xs h hd hx
    have hne : d.length ≠ 0 := Nat.pos_iff_ne_zero.mp hd
    have hlt := Nat.mod_lt (toUnsigned index) hd
    refine ⟨Store.modify (fun _ => PData.Colour (d.set (toUnsigned index % d.length)
        ⟨FloatsFromScheme M xs M.dColour0 3⟩)) G name, ?_, ?_⟩
    · simp only [pdata_set, GetDataInfo, h, PData.type, PData.Size, SetData_dColour, hne, hlt,
        hx, if_true, if_false]
      simp
    · have hg := GetDataRaw_modify (fun _ => PData.Colour (d.set (toUnsigned index % d.length)
        ⟨FloatsFromScheme M xs M.dColour0 3⟩)) G name
      rw [h] at hg
      simp [pdata_ref, GetDataInfo, hg, PData.type, PData.Size, GetData_dColour, hne, hlt,
        FloatsToScheme_colour3 M xs M.dColour0 hx]
  · intro d xs h hd hx
    have hne : d.length ≠ 0 := Nat.pos_iff_ne_zero.mp hd
    have hlt := Nat.mod_lt (toUnsigned index) hd
    refine ⟨Store.modify (fun _ => PData.Matrix (d.set (toUnsigned index % d.length)
        ⟨FloatsFromScheme M xs M.dMatrix0 16⟩)) G name, ?_, ?_⟩
    · simp only [pdata_set, GetDataInfo, h, PData.type, PData.Size, SetData_dMatrix, hne, hlt,
        hx, if_true, if_false]
      simp
    · have hg := GetDataRaw_modify (fun _ => PData.Matrix (d.set (toUnsigned index % d.length)
        ⟨FloatsFromScheme M xs M.dMatrix0 16⟩)) G name
      rw [h] at hg
      simp [pdata_ref, GetDataInfo, hg, PData.type, PData.Size, GetData_dMatrix, hne, hlt,
        FloatsToScheme_FloatsFromScheme M xs M.dMatrix0 16 hx]

/-- The round trip of C2 on the float array of `threeFloats` at index 4, and
on the colour array of `oneColour` with a 3-tuple. -/
theorem pdata_set_ref_roundtrip_witness :
    (∃ G1, pdata_set exactMarshal (some threeFloats) "f" 4 (.number 7)
          = .ok { cerr := [], ret := .void, Grabbed := some G1 }
        ∧ pdata_ref exactMarshal (some G1) "f" 4
          = .ok { cerr := [], ret := .number 7, Grabbed := some G1 })
    ∧ (∃ G1, pdata_set exactMarshal (some oneColour) "c" 0 (.vector [5, 6, 7])
          = .ok { cerr := [], ret := .void, Grabbed := some G1 }
        ∧ pdata_ref exactMarshal (some G1) "c" 0
          = .ok { cerr := [], ret := .vector [5, 6, 7, 1], Grabbed := some G1 }) :=
  ⟨(pdata_set_ref_roundtrip exactMarshal threeFloats "f" 4).1 [10, 20, 30] 7 rfl (by decide),
   (pdata_set_ref_roundtrip exactMarshal oneColour "c" 0).2.2.2.1 [⟨[0, 0, 0, 1]⟩] [5, 6, 7]
      rfl (by decide) rfl⟩

/-- C2 fails as stated: a colour array accepts the 3-tuple (5, 6, 7), and
`pdata_ref` at the same index then returns the 4-tuple (5, 6, 7, 1), which is
not the assigned value, even though every conversion is exact. -/
theorem pdata_set_ref_colour3_differs :
    pdata_set exactMarshal (some oneColour) "c" 0 (.vector [5, 6, 7])
      = .ok { cerr := [], ret := .void, Grabbed := some [("c", .Colour [⟨[5, 6, 7, 1]⟩])] }
    ∧ pdata_ref exactMarshal (some [("c", .Colour [⟨[5, 6, 7, 1]⟩])]) "c" 0
      = .ok { cerr := [], ret := .vector [5, 6, 7, 1],
              Grabbed := some [("c", .Colour [⟨[5, 6, 7, 1]⟩])] }
    ∧ (SchemeValue.vector [5, 6, 7, 1] : SchemeValue Int) ≠ .vector [5, 6, 7] := by
  decide

/-! ## C3: arrays of length zero -/

/-- C3 at the failing input: on the float array "e" of length 0, `pdata_ref`
and `pdata_set` write no diagnostic and reach `index % size` with `size == 0`;
nothing guards the modulo. -/
theorem pdata_zero_length_unguarded :
    GetDataInfo emptyFloats "e" = some ('f', 0)
    ∧ pdata_ref exactMarshal (some emptyFloats) "e" 0 = .error .moduloByZero
    ∧ pdata_set exactMarshal (some emptyFloats) "e" 0 (.number 1) = .error .moduloByZero := by
  decide

/-! ## C4: absent name against unknown type -/

/-- C4: in `pdata_ref`, a call with an absent name and a call with a name that
is present with a type tag other than 'f', 'v', 'c', 'm' have different
outcomes: both return the number 0, and the lines written to `cerr` differ
(the second call writes the unknown-type line first). -/
theorem pdata_ref_absent_vs_unknown_type {S F : Type} (M : Marshal S F) (G G2 : Store F)
    (name name2 : String) (index index2 : Int) (type : Char) (size : Nat)
    (habsent : GetDataInfo G name = none)
    (hpresent : GetDataInfo G2 name2 = some (type, size))
    (hf : type ≠ 'f') (hv : type ≠ 'v') (hc : type ≠ 'c') (hm : type ≠ 'm') :
    ∃ r r2, pdata_ref M (some G) name index = .ok r
      ∧ pdata_ref M (some G2) name2 index2 = .ok r2
      ∧ r.cerr = [.could_not_find_pdata name]
      ∧ r2.cerr = [.unknown_pdata_type type, .could_not_find_pdata name2]
      ∧ (r.cerr, r.ret) ≠ (r2.cerr, r2.ret) := by
  refine ⟨{ cerr := [.could_not_find_pdata name], ret := .number M.zero, Grabbed := some G },
    { cerr := [.unknown_pdata_type type, .could_not_find_pdata name2], ret := .number M.zero,
      Grabbed := some G2 }, ?_, ?_, rfl, rfl, ?_⟩
  · simp only [pdata_ref, habsent]
  · simp only [pdata_ref, hpresent, hf, hv, hc, hm, if_false]
  · simp

/-- C4 at the stores `threeFloats` (no array "x") and `strangeStore` (an array
"x" of unknown type). -/
theorem pdata_ref_absent_vs_unknown_type_witness :
    ∃ r r2, pdata_ref exactMarshal (some threeFloats) "x" 0 = .ok r
      ∧ pdata_ref exactMarshal (some strangeStore) "x" 0 = .ok r2
      ∧ r.cerr = [.could_not_find_pdata "x"]
      ∧ r2.cerr = [.unknown_pdata_type 'x', .could_not_find_pdata "x"]
      ∧ (r.cerr, r.ret) ≠ (r2.cerr, r2.ret) :=
  pdata_ref_absent_vs_unknown_type exactMarshal threeFloats strangeStore "x" "x" 0 0 'x' 2
    (by decide) (by decide) (by decide) (by decide) (by decide) (by decide)

/-! ## C5: what `pdata_set` writes -/

/-- C5 (as amended): `pdata_set` leaves the store unchanged for an absent
name, and for a present array whenever the value is not of the kind the array
takes: a number for a float array, a tuple of exactly 3 for a vector array, of
3 or 4 for a colour array, of exactly 16 for a matrix array; an array of
unknown type is never written. -/
theorem pdata_set_mismatch_unchanged {S F : Type} (M : Marshal S F) (G : Store F)
    (name : String) (index : Int) (value : SchemeValue S) :
    (GetDataRaw G name = none →
      pdata_set M (some G) name index value
        = .ok { cerr := [], ret := .void, Grabbed := some G })
    ∧ (∀ d, GetDataRaw G name = some (.Float d) → (∀ x, value ≠ .number x) →
      pdata_set M (some G) name index value
        = .ok { cerr := [.expected_number], ret := .void, Grabbed := some G })
    ∧ (∀ d, GetDataRaw G name = some (.Vector d) →
      (∀ xs, value = .vector xs → xs.length ≠ 3) →
      pdata_set M (some G) name index value
        = .ok { cerr := [.expected_vector], ret := .void, Grabbed := some G })
    ∧ (∀ d, GetDataRaw G name = some (.Colour d) →
      (∀ xs, value = .vector xs → xs.length ≠ 3 ∧ xs.length ≠ 4) →
      pdata_set M (some G) name index value
        = .ok { cerr := [.expected_colour], ret := .void, Grabbed := some G })
    ∧ (∀ d, GetDataRaw G name = some (.Matrix d) →
      (∀ xs, value = .vector xs → xs.length ≠ 16) →
      pdata_set M (some G) name index value
        = .ok { cerr := [.expected_matrix], ret := .void, Grabbed := some G })
    ∧ (∀ type size, GetDataRaw G name = some (.Other type size) →
      type ≠ 'f' → type ≠ 'v' → type ≠ 'c' → type ≠ 'm' →
      pdata_set M (some G) name index value
        = .ok { cerr := [], ret := .void, Grabbed := some G }) := by
  refine ⟨?_, ?_, ?_, ?_, ?_, ?_⟩
  · intro h
    simp only [pdata_set, GetDataInfo, h]
  · intro d h hv
    cases value <;> simp_all [pdata_set, GetDataInfo, PData.type]
  · intro d h hv
    cases value <;> simp_all [pdata_set, GetDataInfo, PData.type]
  · intro d h hv
    cases value with
    | vector xs =>
      have hx := hv xs rfl
      have : ¬ (3 ≤ xs.length ∧ xs.length ≤ 4) := by omega
      simp [pdata_set, GetDataInfo, PData.type, h, this]
    | _ => simp [pdata_set, GetDataInfo, PData.type, h]
  · intro d h hv
    cases value <;> simp_all [pdata_set, GetDataInfo, PData.type]
  · intro type size h hf hv hc hm
    simp [pdata_set, GetDataInfo, PData.type, h, hf, hv, hc, hm]

/-- C5 at concrete inputs: an absent name, and a 2-tuple offered to the colour
array of `oneColour`. -/
theorem pdata_set_mismatch_unchanged_witness :
    pdata_set exactMarshal (some threeFloats) "q" 0 (.number 1)
      = .ok { cerr := [], ret := .void, Grabbed := some threeFloats }
    ∧ pdata_set exactMarshal (some oneColour) "c" 0 (.vector [5, 6])
      = .ok { cerr := [.expected_colour], ret := .void, Grabbed := some oneColour } :=
  ⟨(pdata_set_mismatch_unchanged exactMarshal threeFloats "q" 0 (.number 1)).1 (by decide),
   (pdata_set_mismatch_unchanged exactMarshal oneColour "c" 0 (.vector [5, 6])).2.2.2.1
      [⟨[0, 0, 0, 1]⟩] (by decide) (by intro xs h; cases h; decide)⟩

/-- C5 fails as stated: a tuple of 3, which is not a tuple of exactly 4, is
written to a colour array, and the store changes. -/
theorem pdata_set_colour_takes_three :
    GetDataInfo oneColour "c" = some ('c', 1)
    ∧ ([5, 6, 7] : List Int).length ≠ 4
    ∧ ∃ G1, pdata_set exactMarshal (some oneColour) "c" 0 (.vector [5, 6, 7])
        = .ok { cerr := [], ret := .void, Grabbed := some G1 }
      ∧ G1 ≠ oneColour :=
  ⟨by decide, by decide, [("c", .Colour [⟨[5, 6, 7, 1]⟩])], by decide, by decide⟩

/-! ## C6: the argument order of `pdata_add` -/

/-- C6 at the failing input: on a store with no array "mydata" and none named
"v", the documented call `(pdata-add "v" "mydata")` adds a matrix array named
"v" (of the length of "p"), and no array named "mydata". -/
theorem pdata_add_reads_name_first :
    GetDataRaw twoPoints "mydata" = none
    ∧ pdata_add exactMarshal (some twoPoints) "v" "mydata"
      = { cerr := [], ret := .void,
          Grabbed := some (twoPoints ++ [("v", .Matrix
            [⟨[1, 0, 0, 0, 0, 1, 0, 0, 0, 0, 1, 0, 0, 0, 0, 1]⟩,
             ⟨[1, 0, 0, 0, 0, 1, 0, 0, 0, 0, 1, 0, 0, 0, 0, 1]⟩])]) }
    ∧ GetDataRaw (twoPoints ++ [("v", PData.Matrix
            [⟨[1, 0, 0, 0, 0, 1, 0, 0, 0, 0, 1, 0, 0, 0, 0, 1]⟩,
             ⟨[1, 0, 0, 0, 0, 1, 0, 0, 0, 0, 1, 0, 0, 0, 0, 1]⟩])]) "mydata" = none := by
  decide

/-! ## C7: the length of a new array -/

/-- C7: for every store, every name not yet in it and every type string whose
code is one of 'v', 'c', 'f', 'm', the array `pdata_add` adds under that name
has the length of the array "p" when "p" is present, and length 0 when it is
absent. -/
theorem pdata_add_length {S F : Type} (M : Marshal S F) (G : Store F) (names types : String)
    (hcode : firstChar types = 'v' ∨ firstChar types = 'c' ∨ firstChar types = 'f'
      ∨ firstChar types = 'm')
    (hnew : GetDataRaw G names = none) :
    ∃ G1 pd, pdata_add M (some G) names types = { cerr := [], ret := .void, Grabbed := some G1 }
      ∧ GetDataRaw G1 names = some pd
      ∧ pd.Size = (match GetDataRaw G "p" with
          | some p => p.Size
          | none => 0) := by
  let sz : Nat := match GetDataInfo G "p" with
    | some (_, size) => size
    | none => 0
  have hsz : sz = (match GetDataRaw G "p" with
      | some p => p.Size
      | none => 0) := by
    cases hp : GetDataRaw G "p" <;> simp [sz, GetDataInfo, hp]
  rcases hcode with h | h | h | h
  · refine ⟨G ++ [(names, .Vector (List.replicate sz ⟨M.dVector0⟩))],
      .Vector (List.replicate sz ⟨M.dVector0⟩), ?_, GetDataRaw_append_new G names _ hnew, ?_⟩
    · simp [pdata_add, h, AddData, hnew, sz]
    · simpa [PData.Size] using hsz
  · refine ⟨G ++ [(names, .Colour (List.replicate sz ⟨M.dColour0⟩))],
      .Colour (List.replicate sz ⟨M.dColour0⟩), ?_, GetDataRaw_append_new G names _ hnew, ?_⟩
    · simp [pdata_add, h, AddData, hnew, sz]
    · simpa [PData.Size] using hsz
  · refine ⟨G ++ [(names, .Float (List.replicate sz M.float0))],
      .Float (List.replicate sz M.float0), ?_, GetDataRaw_append_new G names _ hnew, ?_⟩
    · simp [pdata_add, h, AddData, hnew, sz]
    · simpa [PData.Size] using hsz
  · refine ⟨G ++ [(names, .Matrix (List.replicate sz ⟨M.dMatrix0⟩))],
      .Matrix (List.replicate sz ⟨M.dMatrix0⟩), ?_, GetDataRaw_append_new G names _ hnew, ?_⟩
    · simp [pdata_add, h, AddData, hnew, sz]
    · simpa [PData.Size] using hsz

/-- C7 at the store `twoPoints`, whose array "p" has length 2, and at the
store `threeFloats`, which has no array "p". -/
theorem pdata_add_length_witness :
    (∃ G1 pd, pdata_add exactMarshal (some twoPoints) "mydata" "c"
        = { cerr := [], ret := .void, Grabbed := some G1 }
      ∧ GetDataRaw G1 "mydata" = some pd ∧ pd.Size = 2)
    ∧ (∃ G1 pd, pdata_add exactMarshal (some threeFloats) "mydata" "f"
        = { cerr := [], ret := .void, Grabbed := some G1 }
      ∧ GetDataRaw G1 "mydata" = some pd ∧ pd.Size = 0) :=
  ⟨pdata_add_length exactMarshal twoPoints "mydata" "c" (by decide) (by decide),
   pdata_add_length exactMarshal threeFloats "mydata" "f" (by decide) (by decide)⟩

/-! ## C8: type strings `pdata_add` refuses -/

/-- C8 (as amended): for every type string whose first character (the NUL of
an empty string included) is none of 'f', 'v', 'c', 'm', `pdata_add` writes the
unknown-type line, adds no array and leaves the store unchanged. -/
theorem pdata_add_unknown_type {S F : Type} (M : Marshal S F) (G : Store F)
    (names types : String)
    (hf : firstChar types ≠ 'f') (hv : firstChar types ≠ 'v') (hc : firstChar types ≠ 'c')
    (hm : firstChar types ≠ 'm') :
    pdata_add M (some G) names types
      = { cerr := [.pdata_new_unknown_type (firstChar types)], ret := .void,
          Grabbed := some G } := by
  simp [pdata_add, hf, hv, hc, hm]

/-- C8 as amended, at the type strings "x" and "". -/
theorem pdata_add_unknown_type_witness :
    pdata_add exactMarshal (some twoPoints) "mydata" "x"
      = { cerr := [.pdata_new_unknown_type 'x'], ret := .void, Grabbed := some twoPoints }
    ∧ pdata_add exactMarshal (some twoPoints) "mydata" ""
      = { cerr := [.pdata_new_unknown_type (Char.ofNat 0)], ret := .void,
          Grabbed := some twoPoints } :=
  ⟨pdata_add_unknown_type exactMarshal twoPoints "mydata" "x"
      (by decide) (by decide) (by decide) (by decide),
   pdata_add_unknown_type exactMarshal twoPoints "mydata" ""
      (by decide) (by decide) (by decide) (by decide)⟩

/-- C8 fails as stated: the type string "vx" is none of "f", "v", "c", "m",
and `pdata_add` writes nothing to `cerr` and adds a vector array. -/
theorem pdata_add_reads_first_char :
    "vx" ≠ "f" ∧ "vx" ≠ "v" ∧ "vx" ≠ "c" ∧ "vx" ≠ "m"
    ∧ pdata_add exactMarshal (some twoPoints) "mydata" "vx"
      = { cerr := [], ret := .void,
          Grabbed := some (twoPoints
            ++ [("mydata", .Vector [⟨[0, 0, 0, 1]⟩, ⟨[0, 0, 0, 1]⟩])]) }
    ∧ twoPoints ++ [("mydata", PData.Vector [⟨[0, 0, 0, 1]⟩, ⟨[0, 0, 0, 1]⟩])] ≠ twoPoints := by
  decide

/-! ## C9: a name that already exists -/

/-- C9: for every store and every name already present in it, `pdata_add` with
that name leaves the store (the existing array with its type and elements, and
every other array) unchanged whatever the type string, and with any of the four
type codes it writes the already-exists line. -/
theorem pdata_add_duplicate {S F : Type} (M : Marshal S F) (G : Store F) (names : String)
    (pd : PData F) (h : GetDataRaw G names = some pd) :
    (∀ types, (pdata_add M (some G) names types).Grabbed = some G
      ∧ (pdata_add M (some G) names types).ret = .void)
    ∧ (∀ types, firstChar types = 'v' ∨ firstChar types = 'c' ∨ firstChar types = 'f'
        ∨ firstChar types = 'm' →
      pdata_add M (some G) names types
        = { cerr := [.already_exists names], ret := .void, Grabbed := some G }) := by
  constructor
  · intro types
    simp only [pdata_add, AddData, h]
    repeat' split
    all_goals simp
  · intro types hcode
    rcases hcode with hc | hc | hc | hc <;> simp [pdata_add, AddData, h, hc]

/-- C9 at the store `twoPoints` and the name "p", with the type codes 'f' and
'm'. -/
theorem pdata_add_duplicate_witness :
    pdata_add exactMarshal (some twoPoints) "p" "f"
      = { cerr := [.already_exists "p"], ret := .void, Grabbed := some twoPoints }
    ∧ pdata_add exactMarshal (some twoPoints) "p" "m"
      = { cerr := [.already_exists "p"], ret := .void, Grabbed := some twoPoints } :=
  ⟨(pdata_add_duplicate exactMarshal twoPoints "p" _ (by rfl)).2 "f" (by decide),
   (pdata_add_duplicate exactMarshal twoPoints "p" _ (by rfl)).2 "m" (by decide)⟩

/-! ## C10: a tuple operand of unsupported size -/

/-- C10 (as amended): for every op engine, operator name and array name,
`pdata_op` called with a tuple operand whose size is not 3, 4 or 16 writes no
diagnostic, makes no call of the op engine, leaves the store unchanged and
returns void. -/
theorem pdata_op_bad_tuple {S F : Type} (M : Marshal S F) (DataOp : Engine F) (G : Store F)
    (op pd : String) (xs : List S)
    (h3 : xs.length ≠ 3) (h4 : xs.length ≠ 4) (h16 : xs.length ≠ 16) :
    pdata_op M DataOp (some G) op pd (.vector xs)
      = .ok { cerr := [], ret := .void, Grabbed := some G, calls := [] } := by
  simp [pdata_op, selectOperand, h3, h4, h16]

/-- C10 as amended, at a tuple of size 2. -/
theorem pdata_op_bad_tuple_witness :
    pdata_op exactMarshal idleEngine (some threeFloats) "+" "f" (.vector [1, 2])
      = .ok { cerr := [], ret := .void, Grabbed := some threeFloats, calls := [] } :=
  pdata_op_bad_tuple exactMarshal idleEngine threeFloats "+" "f" [1, 2]
    (by decide) (by decide) (by decide)

/-- C10 fails as stated: with a tuple operand of size 2, `pdata_op` returns
void having written nothing to `cerr`, so no error is reported. -/
theorem pdata_op_bad_tuple_silent :
    ([1, 2] : List Int).length ≠ 3 ∧ ([1, 2] : List Int).length ≠ 4
    ∧ ([1, 2] : List Int).length ≠ 16
    ∧ ∃ r, pdata_op exactMarshal idleEngine (some threeFloats) "+" "f" (.vector [1, 2]) = .ok r
      ∧ r.cerr = [] ∧ r.ret = .void :=
  ⟨by decide, by decide, by decide,
   { cerr := [], ret := .void, Grabbed := some threeFloats, calls := [] }, by decide, rfl, rfl⟩

/-! ## C11: unwrapping the result of the op engine -/

/-- C11: whenever `pdata_op` calls the op engine and the engine hands back a
single-element array, `pdata_op` returns element 0 of it as a bare value: a
number for a float array, the first 3 floats of a vector, the first 4 of a
colour and the first 16 of a matrix, as a tuple of that many numbers; whenever
the engine hands back nothing, `pdata_op` returns void. -/
theorem pdata_op_unwraps {S F : Type} (M : Marshal S F) (DataOp : Engine F) (G : Store F)
    (op pd : String) (value : SchemeValue S) (operand : Operand F)
    (hsel : selectOperand M G value = some operand) :
    (∀ r G1, DataOp op pd operand G = (some (.Float [r]), G1) →
      pdata_op M DataOp (some G) op pd value
        = .ok { cerr := [], ret := .number (M.scheme_make_double r), Grabbed := some G1,
                calls := [(op, pd, operand)] })
    ∧ (∀ r G1, DataOp op pd operand G = (some (.Vector [r]), G1) → 3 ≤ r.arr.length →
      ∃ ys, ys.length = 3 ∧ ys = (r.arr.take 3).map M.scheme_make_double
        ∧ pdata_op M DataOp (some G) op pd value
          = .ok { cerr := [], ret := .vector ys, Grabbed := some G1,
                  calls := [(op, pd, operand)] })
    ∧ (∀ r G1, DataOp op pd operand G = (some (.Colour [r]), G1) → 4 ≤ r.arr.length →
      ∃ ys, ys.length = 4 ∧ ys = (r.arr.take 4).map M.scheme_make_double
        ∧ pdata_op M DataOp (some G) op pd value
          = .ok { cerr := [], ret := .vector ys, Grabbed := some G1,
                  calls := [(op, pd, operand)] })
    ∧ (∀ r G1, DataOp op pd operand G = (some (.Matrix [r]), G1) → 16 ≤ r.arr.length →
      ∃ ys, ys.length = 16 ∧ ys = (r.arr.take 16).map M.scheme_make_double
        ∧ pdata_op M DataOp (some G) op pd value
          = .ok { cerr := [], ret := .vector ys, Grabbed := some G1,
                  calls := [(op, pd, operand)] })
    ∧ (∀ G1, DataOp op pd operand G = (none, G1) →
      pdata_op M DataOp (some G) op pd value
        = .ok { cerr := [], ret := .void, Grabbed := some G1,
                calls := [(op, pd, operand)] }) := by
  refine ⟨?_, ?_, ?_, ?_, ?_⟩
  · intro r G1 h
    simp [pdata_op, hsel, h, convertReturn]
  · intro r G1 h hr
    refine ⟨_, ?_, rfl, ?_⟩
    · simp [List.length_take, hr]
    · simp [pdata_op, hsel, h, convertReturn, FloatsToScheme]
  · intro r G1 h hr
    refine ⟨_, ?_, rfl, ?_⟩
    · simp [List.length_take, hr]
    · simp [pdata_op, hsel, h, convertReturn, FloatsToScheme]
  · intro r G1 h hr
    refine ⟨_, ?_, rfl, ?_⟩
    · simp [List.length_take, hr]
    · simp [pdata_op, hsel, h, convertReturn, FloatsToScheme]
  · intro G1 h
    simp [pdata_op, hsel, h, convertReturn]

/-- C11 at an engine that hands back the single-element vector array holding
(7, 8, 9), and at the engine that hands back nothing. -/
theorem pdata_op_unwraps_witness :
    (∃ ys, ys.length = 3 ∧ ys = [7, 8, 9]
      ∧ pdata_op exactMarshal (constEngine (.Vector [⟨[7, 8, 9, 1]⟩])) (some twoPoints)
          "closest" "p" (.vector [100, 0, 0])
        = .ok { cerr := [], ret := .vector ys, Grabbed := some twoPoints,
                calls := [("closest", "p", .vector ⟨[100, 0, 0, 1]⟩)] })
    ∧ pdata_op exactMarshal idleEngine (some twoPoints) "+" "p" (.number 2)
        = .ok { cerr := [], ret := .void, Grabbed := some twoPoints,
                calls := [("+", "p", .float 2)] } :=
  ⟨(pdata_op_unwraps exactMarshal (constEngine (.Vector [⟨[7, 8, 9, 1]⟩])) twoPoints
      "closest" "p" (.vector [100, 0, 0]) (.vector ⟨[100, 0, 0, 1]⟩) (by decide)).2.1
      ⟨[7, 8, 9, 1]⟩ twoPoints rfl (by decide),
   (pdata_op_unwraps exactMarshal idleEngine twoPoints "+" "p" (.number 2) (.float 2)
      (by decide)).2.2.2.2 twoPoints rfl⟩

/-! ## Lemmas on the copy loops of `Load` -/

theorem copyRow_spec (row : Nat → png_byte) :
    ∀ (n i : Nat) (acc : List png_byte) (p : Nat), p + n ≤ INT_MAX →
      copyRow row n i (acc, p) = .ok (acc ++ (List.range' i n).map row, p + n) := by
  intro n
  induction n with
  | zero => intro i acc p _; simp [copyRow]
  | succ n ih =>
    intro i acc p h
    have hp : p ≠ INT_MAX := by omega
    have h1 : p + 1 + n ≤ INT_MAX := by omega
    simp only [copyRow, hp, if_false, ih (i + 1) (acc ++ [row i]) (p + 1) h1]
    simp [List.range'_succ, Nat.add_assoc, Nat.add_comm 1 n]

theorem fillRows_spec (rows : Nat → Nat → png_byte) (rb : Nat) :
    ∀ (n : Nat) (acc : List png_byte) (p : Nat), p + rb * n ≤ INT_MAX →
      ∃ buf, fillRows rows rb n (acc, p) = .ok (acc ++ buf, p + rb * n)
        ∧ buf.length = rb * n
        ∧ ∀ k, k < n → ∀ i, i < rb → buf[k * rb + i]? = some (rows (n - 1 - k) i) := by
  intro n
  induction n with
  | zero =>
    intro acc p _
    exact ⟨[], by simp [fillRows], by simp, fun k hk => absurd hk (Nat.not_lt_zero k)⟩
  | succ n ih =>
    intro acc p h
    have hmul : rb * (n + 1) = rb + rb * n := by ring
    have h0 : p + rb ≤ INT_MAX := by omega
    have h1 : p + rb + rb * n ≤ INT_MAX := by omega
    obtain ⟨buf, hrun, hlen, hget⟩ := ih (acc ++ (List.range' 0 rb).map (rows n)) (p + rb) h1
    refine ⟨(List.range' 0 rb).map (rows n) ++ buf, ?_, ?_, ?_⟩
    · simp only [fillRows, copyRow_spec (rows n) rb 0 acc p h0, hrun]
      simp [hmul, Nat.add_assoc]
    · simp [hlen, hmul]
    · intro k hk i hi
      cases k with
      | zero =>
        have hlt : 0 * rb + i < ((List.range' 0 rb).map (rows n)).length := by simpa using hi
        rw [List.getElem?_append_left hlt]
        simp [hi]
      | succ k =>
        have hge : ((List.range' 0 rb).map (rows n)).length ≤ (k + 1) * rb + i := by
          simp only [List.length_map, List.length_range']
          nlinarith
        rw [List.getElem?_append_right hge]
        have hidx : (k + 1) * rb + i - ((List.range' 0 rb).map (rows n)).length = k * rb + i := by
          simp only [List.length_map, List.length_range']
          have : (k + 1) * rb = k * rb + rb := by ring
          omega
        rw [hidx, hget k (by omega) i hi]
        congr 2
        omega

theorem Load_counts (rowbytes height : Nat) (hfit : rowbytes * height ≤ INT_MAX) :
    (height = 0 ∧ (toInt32 ((height : Int) - 1) + 1).toNat = 0)
    ∨ (rowbytes = 0 ∧ rowbytes % 2 ^ 32 = 0)
    ∨ (rowbytes % 2 ^ 32 = rowbytes ∧ (toInt32 ((height : Int) - 1) + 1).toNat = height) := by
  unfold INT_MAX at hfit
  rcases Nat.eq_zero_or_pos height with h0 | hpos
  · left
    subst h0
    exact ⟨rfl, by decide⟩
  · rcases Nat.eq_zero_or_pos rowbytes with r0 | rpos
    · right; left
      subst r0
      exact ⟨rfl, rfl⟩
    · right; right
      have hr : rowbytes ≤ 2147483647 := by nlinarith
      have hh : height ≤ 2147483647 := by nlinarith
      refine ⟨Nat.mod_eq_of_lt (by omega), ?_⟩
      unfold toInt32
      split <;> omega

theorem Load_buffer (img : PngImage) (hfit : img.rowbytes * img.height ≤ INT_MAX) :
    ∃ buf p, fillRows img.row_pointers (img.rowbytes % 2 ^ 32)
        (toInt32 ((img.height : Int) - 1) + 1).toNat ([], 0) = .ok (buf, p)
      ∧ buf.length = img.rowbytes * img.height
      ∧ ∀ k, k < img.height → ∀ i, i < img.rowbytes →
          buf[k * img.rowbytes + i]? = some (img.row_pointers (img.height - 1 - k) i) := by
  rcases Load_counts img.rowbytes img.height hfit with ⟨h0, hn⟩ | ⟨r0, hrb⟩ | ⟨hrb, hn⟩
  · refine ⟨[], 0, ?_, by simp [h0], ?_⟩
    · rw [hn]; rfl
    · intro k hk; omega
  · obtain ⟨buf, hrun, hlen, _⟩ := fillRows_spec img.row_pointers (img.rowbytes % 2 ^ 32)
      (toInt32 ((img.height : Int) - 1) + 1).toNat [] 0 (by rw [hrb]; simp)
    rw [List.nil_append] at hrun
    refine ⟨buf, _, hrun, ?_, ?_⟩
    · rw [hlen, hrb, r0]; simp
    · intro k _ i hi; omega
  · obtain ⟨buf, hrun, hlen, hget⟩ := fillRows_spec img.row_pointers (img.rowbytes % 2 ^ 32)
      (toInt32 ((img.height : Int) - 1) + 1).toNat [] 0 (by rw [hrb, hn]; simpa using hfit)
    rw [List.nil_append] at hrun
    refine ⟨buf, _, hrun, ?_, ?_⟩
    · rw [hlen, hrb, hn]
    · intro k hk i hi
      have := hget k (by rw [hn]; exact hk) i (by rw [hrb]; exact hi)
      rw [hrb, hn] at this
      exact this

theorem Load_spec (K : PngConstants) (img : PngImage) (desc : TextureDesc)
    (hct : img.colour_type = K.PNG_COLOR_TYPE_RGB
      ∨ img.colour_type = K.PNG_COLOR_TYPE_RGB_ALPHA)
    (hfit : img.rowbytes * img.height ≤ INT_MAX) :
    ∃ desc1 buf, PNGLoader.Load K img desc = .ok desc1
      ∧ desc1.ImageData = some buf
      ∧ buf.length = img.rowbytes * img.height
      ∧ ∀ k, k < img.height → ∀ i, i < img.rowbytes →
          buf[k * img.rowbytes + i]? = some (img.row_pointers (img.height - 1 - k) i) := by
  obtain ⟨buf, p, hrun, hlen, hget⟩ := Load_buffer img hfit
  by_cases h1 : img.colour_type = K.PNG_COLOR_TYPE_RGB
  · refine ⟨{ Width := img.width, Height := img.height, Format := K.GL_RGB,
              InternalFormat := K.GL_RGB, Size := img.width * img.height * 3,
              ImageData := some buf }, buf, ?_, rfl, hlen, hget⟩
    simp only [PNGLoader.Load, hrun, h1, if_true]
  · have h2 : img.colour_type = K.PNG_COLOR_TYPE_RGB_ALPHA := hct.resolve_left h1
    refine ⟨{ Width := img.width, Height := img.height, Format := K.GL_RGBA,
              InternalFormat := K.GL_RGBA, Size := img.width * img.height * 4,
              ImageData := some buf }, buf, ?_, rfl, hlen, hget⟩
    have h3 : ¬ K.PNG_COLOR_TYPE_RGB_ALPHA = K.PNG_COLOR_TYPE_RGB := fun h => h1 (h2.trans h)
    simp only [PNGLoader.Load, hrun, h2, h3, if_true, if_false]

theorem Load_other (K : PngConstants) (img : PngImage) (desc : TextureDesc)
    (hfit : img.rowbytes * img.height ≤ INT_MAX)
    (h1 : img.colour_type ≠ K.PNG_COLOR_TYPE_RGB)
    (h2 : img.colour_type ≠ K.PNG_COLOR_TYPE_RGB_ALPHA) :
    PNGLoader.Load K img desc
      = .ok { Width := img.width, Height := img.height, Format := desc.Format,
              InternalFormat := desc.InternalFormat, Size := desc.Size,
              ImageData := none } := by
  obtain ⟨buf, p, hrun, _, _⟩ := Load_buffer img hfit
  simp only [PNGLoader.Load, hrun, h1, h2, if_false]

/-! ## C12: `Load` flips the rows -/

/-- C12 (as amended): for every image of height h with rows of rb bytes whose
rb * h bytes are within the range of the `int` position counter: when its
colour type is RGB or RGB_ALPHA, `PNGLoader::Load` produces an `ImageData`
buffer of exactly rb * h bytes in which byte i of row k (at k * rb + i) is
byte i of file row h - 1 - k, for every k < h and i < rb; for any other colour
type `Load` discards the buffer and leaves `ImageData` NULL (and the format and
size of the description as they were). -/
theorem PNGLoader_Load_flips (K : PngConstants) (img : PngImage) (desc : TextureDesc)
    (hfit : img.rowbytes * img.height ≤ INT_MAX) :
    (img.colour_type = K.PNG_COLOR_TYPE_RGB ∨ img.colour_type = K.PNG_COLOR_TYPE_RGB_ALPHA →
      ∃ desc1 buf, PNGLoader.Load K img desc = .ok desc1
        ∧ desc1.ImageData = some buf
        ∧ buf.length = img.rowbytes * img.height
        ∧ ∀ k, k < img.height → ∀ i, i < img.rowbytes →
            buf[k * img.rowbytes + i]? = some (img.row_pointers (img.height - 1 - k) i))
    ∧ (img.colour_type ≠ K.PNG_COLOR_TYPE_RGB → img.colour_type ≠ K.PNG_COLOR_TYPE_RGB_ALPHA →
      PNGLoader.Load K img desc
        = .ok { Width := img.width, Height := img.height, Format := desc.Format,
                InternalFormat := desc.InternalFormat, Size := desc.Size,
                ImageData := none }) :=
  ⟨fun hct => Load_spec K img desc hct hfit, Load_other K img desc hfit⟩

/-- C12 as amended, at the RGB image `twoRows`, whose buffer is
(4, 5, 6, 1, 2, 3), the second file row first, and at the greyscale image
`greyPixel`. -/
theorem PNGLoader_Load_flips_witness :
    (∃ desc1 buf, PNGLoader.Load pngConstants twoRows emptyDesc = .ok desc1
      ∧ desc1.ImageData = some buf
      ∧ buf.length = twoRows.rowbytes * twoRows.height
      ∧ ∀ k, k < twoRows.height → ∀ i, i < twoRows.rowbytes →
          buf[k * twoRows.rowbytes + i]? = some (twoRows.row_pointers (twoRows.height - 1 - k) i))
    ∧ PNGLoader.Load pngConstants twoRows emptyDesc
        = .ok { Width := 1, Height := 2, Format := 6407, InternalFormat := 6407, Size := 6,
                ImageData := some [4, 5, 6, 1, 2, 3] }
    ∧ PNGLoader.Load pngConstants greyPixel emptyDesc
        = .ok { Width := greyPixel.width, Height := greyPixel.height,
                Format := emptyDesc.Format, InternalFormat := emptyDesc.InternalFormat,
                Size := emptyDesc.Size, ImageData := none } :=
  ⟨(PNGLoader_Load_flips pngConstants twoRows emptyDesc (by decide)).1 (by decide), by decide,
   (PNGLoader_Load_flips pngConstants greyPixel emptyDesc (by decide)).2 (by decide)
      (by decide)⟩

/-- C12 fails as stated: for the greyscale image `greyPixel`, of height 1 with
rows of 1 byte, `Load` produces no buffer: `ImageData` is NULL. -/
theorem PNGLoader_Load_grey_no_buffer :
    greyPixel.height = 1 ∧ greyPixel.rowbytes = 1
    ∧ PNGLoader.Load pngConstants greyPixel emptyDesc
        = .ok { Width := 1, Height := 1, Format := 0, InternalFormat := 0, Size := 0,
                ImageData := none } := by
  decide

/-! ## C13: `Save` then `Load` -/

/-- C13 at the failing input, an RGBA buffer of width 500000 and height 4000
(stride 2000000): `Save` calls `png_set_text` with a count of 2 although only
`atext[0]` is assigned, which is undefined for this and every other buffer of a
known pixel format; and the offset 2000000 * 3999 of buffer row h - 1 wraps in
`unsigned int` to 3703032704, so that byte 0 of file row 0 is the buffer byte
at 3703032704 and not byte 0 of buffer row h - 1. -/
theorem PNGLoader_Save_offset_wraps :
    PNGLoader.Save pngConstants 500000 4000 6408 longBuffer = .error .uninitialised_text
    ∧ (∀ w h data, PNGLoader.Save pngConstants w h 6407 data = .error .uninitialised_text)
    ∧ (∀ w h data, PNGLoader.Save pngConstants w h 6408 data = .error .uninitialised_text)
    ∧ (500000 * 4) % 2 ^ 32 = 2000000
    ∧ (2000000 * (4000 - 1 - 0)) % 2 ^ 32 = 3703032704
    ∧ aprow 2000000 4000 longBuffer 0 0 = longBuffer 3703032704
    ∧ longBuffer 3703032704 = 0
    ∧ longBuffer (2000000 * (4000 - 1 - 0) + 0) = 1 :=
  ⟨rfl, fun _ _ _ => rfl, fun _ _ _ => rfl, by decide, by decide, by decide, by decide,
   by decide⟩

end Fluxus
